import Mathlib

/-!
Shallow embedding of the cooncierge-survey client (src/src/App.jsx).

The survey app is a linear wizard over a local form state; on the final
step it runs a three-call submission sequence against a remote record
store (insert, update) and a remote blob store (upload, public-URL
derivation).  We embed the pure parts (`buildPayload`, `validateStep`,
step navigation, the team-size labels) as Lean functions, and the
orchestrator `handleSubmit` as a pure function from the consent flag,
the form state and a `World` oracle (the outcomes the remote stores
would return) to the trace of remote calls it makes, the terminal
status, the surviving record and blob object.
-/

/-- Profiling section of the form state (App.jsx `initialForm.profiling`). -/
structure Profiling where
  products : List String
  productsOther : String
  audience : List String
  audienceOther : String
  teamSize : Nat
deriving DecidableEq, Repr

/-- Customer-end pain-point group (App.jsx `painPoints.customerEnd`). -/
structure CustomerEnd where
  lms : Bool
  conversionTimeQuote : Bool
  rightCustomers : Bool
  other : String
deriving DecidableEq, Repr

/-- Internal-ops pain-point group (App.jsx `painPoints.internalOps`). -/
structure InternalOps where
  finance : Bool
  reports : Bool
  dk : Bool
  dayToDayBookings : Bool
  onTripOps : Bool
  trainingNewJoinee : Bool
  other : String
deriving DecidableEq, Repr

/-- Supplier-end pain-point group (App.jsx `painPoints.supplierEnd`). -/
structure SupplierEnd where
  marketplace : Bool
  prices : Bool
  landPartPrices : Bool
  other : String
deriving DecidableEq, Repr

/-- The three pain-point groups (App.jsx `painPoints`). -/
structure PainPoints where
  customerEnd : CustomerEnd
  internalOps : InternalOps
  supplierEnd : SupplierEnd
deriving DecidableEq, Repr

/-- A selected file: name and MIME type (the `File` object fields the code reads). -/
structure FileBlob where
  name : String
  type : String
deriving DecidableEq, Repr

/-- Photo section of the form state (App.jsx `initialForm.photo`). -/
structure Photo where
  file : Option FileBlob
  previewUrl : String
deriving DecidableEq, Repr

/-- The whole wizard form state (App.jsx `initialForm` shape). -/
structure FormState where
  profiling : Profiling
  painPoints : PainPoints
  photo : Photo
deriving DecidableEq, Repr

/-- App.jsx `initialForm` (lines 11-46), verbatim. -/
def initialForm : FormState :=
  { profiling :=
      { products := ["Tours & Experiences"]
        productsOther := ""
        audience := ["Direct Consumers"]
        audienceOther := ""
        teamSize := 12 }
    painPoints :=
      { customerEnd := { lms := false, conversionTimeQuote := false, rightCustomers := false, other := "" }
        internalOps := { finance := false, reports := false, dk := false, dayToDayBookings := false,
                         onTripOps := false, trainingNewJoinee := false, other := "" }
        supplierEnd := { marketplace := false, prices := false, landPartPrices := false, other := "" } }
    photo := { file := none, previewUrl := "" } }

/-- A wizard step (App.jsx `STEPS` entries). -/
structure Step where
  id : String
  title : String
deriving DecidableEq, Repr

/-- App.jsx `STEPS` (lines 4-9). -/
def STEPS : List Step :=
  [ { id := "profiling", title := "Profiling" }
  , { id := "pain", title := "Pain Points" }
  , { id := "photo", title := "Photo" }
  , { id := "review", title := "Review & Submit" } ]

/-- The JS string trim used at App.jsx lines 51-52: strip whitespace
from both ends.  Embedded over the character list so the kernel can
evaluate it. -/
def jsTrim (s : String) : String :=
  ⟨((s.data.dropWhile Char.isWhitespace).reverse.dropWhile Char.isWhitespace).reverse⟩

/-- App.jsx `validateStep` (lines 48-62): the profiling step requires
non-empty products and audience, with the free-text field non-blank
whenever "Other" is selected; every other step validates. -/
def validateStep (stepId : String) (form : FormState) : Bool :=
  if stepId = "profiling" then
    let products := form.profiling.products
    let audience := form.profiling.audience
    let productsOther := form.profiling.productsOther
    let audienceOther := form.profiling.audienceOther
    let productsOk := decide (products.length > 0) &&
      (!(products.contains "Other") || jsTrim productsOther != "")
    let audienceOk := decide (audience.length > 0) &&
      (!(audience.contains "Other") || jsTrim audienceOther != "")
    productsOk && audienceOk
  else if stepId = "pain" then
    true
  else if stepId = "photo" then
    true
  else
    true

/-- Wire shape of the pain-point groups inside the payload
(App.jsx `buildPayload`, `pain_points` object). -/
structure PainPointsWire where
  customer_end : CustomerEnd
  internal_ops : InternalOps
  supplier_end : SupplierEnd
deriving DecidableEq, Repr

/-- The submission payload (App.jsx `buildPayload` return shape):
profiling verbatim plus the three pain-point groups under wire names.
There is no photo field. -/
structure SubmissionPayload where
  profiling : Profiling
  pain_points : PainPointsWire
deriving DecidableEq, Repr

/-- App.jsx `buildPayload` (lines 64-73). -/
def buildPayload (form : FormState) : SubmissionPayload :=
  { profiling := form.profiling
    pain_points :=
      { customer_end := form.painPoints.customerEnd
        internal_ops := form.painPoints.internalOps
        supplier_end := form.painPoints.supplierEnd } }

/-- The step id the UI reads at a given index:
`const step = STEPS[stepIndex]` then `step.id` (App.jsx lines 83-84). -/
def stepIdAt (stepIndex : Nat) : String :=
  ((STEPS.get? stepIndex).map Step.id).getD ""

/-- App.jsx `nextStep` (lines 140-147): advance only when the current
step validates, clamping at the last index; otherwise stay. -/
def nextStep (stepIndex : Nat) (form : FormState) : Nat :=
  if validateStep (stepIdAt stepIndex) form then
    min (stepIndex + 1) (STEPS.length - 1)
  else
    stepIndex

/-- App.jsx `prevStep` (lines 149-152): `Math.max(prev - 1, 0)`. -/
def prevStep (stepIndex : Nat) : Nat :=
  (max ((stepIndex : Int) - 1) 0).toNat

/-- Team-size label in `renderProfiling` (App.jsx line 236): the
sentinel "100+" when teamSize is at least 100, else the number. -/
def profilingTeamLabel (teamSize : Nat) : String :=
  if teamSize ≥ 100 then "100+" else toString teamSize

/-- Team-size label in `renderReview` (App.jsx line 544): the
sentinel "100+" when teamSize is at least 100, else the number. -/
def reviewTeamLabel (teamSize : Nat) : String :=
  if teamSize ≥ 100 then "100+" else toString teamSize

/-- The extension computation of App.jsx line 181, split on "." then
pop: the last dot-separated component of the file name. -/
def fileExtOf (name : String) : String :=
  (name.splitOn ".").getLastD ""

/-- Status state tag (App.jsx `status.state`). -/
inductive StatusState where
  | idle
  | loading
  | success
  | error
deriving DecidableEq, Repr

/-- The UI status object (App.jsx `status`). -/
structure Status where
  state : StatusState
  message : String
deriving DecidableEq, Repr

/-- The catch-block message of App.jsx line 231 (error message with a
fallback): an empty message string is falsy in JS. -/
def errMessage (msg : String) : String :=
  if msg = "" then "Submission failed." else msg

/-- One remote call made by `handleSubmit`.  `insert` and `update` hit
the Record Store; `upload` and `getPublicUrl` hit the Blob Store. -/
inductive Call where
  | insert (payload : SubmissionPayload) (createdAt : String)
  | upload (path : String) (contentType : String) (upsert : Bool)
  | getPublicUrl (path : String)
  | update (id : Nat) (photoPath : String) (photoUrl : Option String)
deriving DecidableEq, Repr

/-- True on Record Store insert calls. -/
def Call.isInsert : Call → Bool
  | .insert _ _ => true
  | _ => false

/-- True on Blob Store calls (upload and public-URL derivation). -/
def Call.isBlobStore : Call → Bool
  | .upload _ _ _ => true
  | .getPublicUrl _ => true
  | _ => false

/-- True on Record Store update calls. -/
def Call.isUpdate : Call → Bool
  | .update _ _ _ => true
  | _ => false

/-- Number of Record Store insert calls in a trace. -/
def insertCalls (trace : List Call) : Nat :=
  (trace.filter Call.isInsert).length

/-- Number of Blob Store calls in a trace. -/
def blobCalls (trace : List Call) : Nat :=
  (trace.filter Call.isBlobStore).length

/-- Number of Record Store update calls in a trace. -/
def updateCalls (trace : List Call) : Nat :=
  (trace.filter Call.isUpdate).length

/-- The persisted survey row (spec section 6 schema; App.jsx insert and
update calls).  Photo fields are null (`none`) until a successful update. -/
structure SurveyRecord where
  id : Nat
  created_at : String
  data : SubmissionPayload
  photo_path : Option String
  photo_url : Option String
deriving DecidableEq, Repr

/-- Oracle for the remote stores and the clock during one submission
attempt: the outcome each call would have, the generated id, the
timestamps, and what the public-URL derivation yields. -/
structure World where
  insertError : Option String
  newId : Nat
  createdAt : String
  nowMillis : Nat
  uploadError : Option String
  publicUrl : Option String
  updateError : Option String
deriving DecidableEq, Repr

/-- Result of one `handleSubmit` run: the remote calls made in order,
the terminal status, the record left in the Record Store (if any), and
the object left in the Blob Store (if any). -/
structure SubmitResult where
  trace : List Call
  status : Status
  record : Option SurveyRecord
  blobObject : Option String
deriving DecidableEq, Repr

/-- App.jsx `handleSubmit` (lines 154-233) over the `World` oracle.
Consent is checked first (lines 155-158); then payload build, insert,
and — only when a photo file is attached — key derivation, upload,
public-URL derivation and record update, with any store error aborting
to the catch block (status error, later calls not made). -/
def handleSubmit (consent : Bool) (form : FormState) (w : World) : SubmitResult :=
  if !consent then
    { trace := []
      status := { state := .error, message := "Please confirm consent to submit." }
      record := none
      blobObject := none }
  else
    let payload := buildPayload form
    match w.insertError with
    | some msg =>
        { trace := [.insert payload w.createdAt]
          status := { state := .error, message := errMessage msg }
          record := none
          blobObject := none }
    | none =>
        let surveyId := w.newId
        let inserted : SurveyRecord :=
          { id := surveyId, created_at := w.createdAt, data := payload
            photo_path := none, photo_url := none }
        match form.photo.file with
        | none =>
            { trace := [.insert payload w.createdAt]
              status := { state := .success, message := "Survey submitted successfully." }
              record := some inserted
              blobObject := none }
        | some file =>
            let fileExt := fileExtOf file.name
            let fileName := "survey-" ++ toString surveyId ++ "-" ++ toString w.nowMillis ++ "." ++ fileExt
            let filePath := "survey-photos/" ++ fileName
            match w.uploadError with
            | some msg =>
                { trace := [.insert payload w.createdAt, .upload filePath file.type false]
                  status := { state := .error, message := errMessage msg }
                  record := some inserted
                  blobObject := none }
            | none =>
                let publicUrl := w.publicUrl
                match w.updateError with
                | some msg =>
                    { trace := [.insert payload w.createdAt, .upload filePath file.type false,
                                .getPublicUrl filePath, .update surveyId filePath publicUrl]
                      status := { state := .error, message := errMessage msg }
                      record := some inserted
                      blobObject := some filePath }
                | none =>
                    { trace := [.insert payload w.createdAt, .upload filePath file.type false,
                                .getPublicUrl filePath, .update surveyId filePath publicUrl]
                      status := { state := .success, message := "Survey submitted successfully." }
                      record := some { inserted with photo_path := some filePath, photo_url := publicUrl }
                      blobObject := some filePath }

/-! Concrete fixtures used by witnesses and counterexamples. -/

/-- A sample selected photo file. -/
def sampleFile : FileBlob := { name := "trip.jpg", type := "image/jpeg" }

/-- The initial form with a sample photo attached. -/
def formWithPhoto : FormState :=
  { initialForm with photo := { file := some sampleFile, previewUrl := "blob:preview" } }

/-- A world in which every remote call succeeds. -/
def wOk : World :=
  { insertError := none, newId := 7, createdAt := "2026-01-01T00:00:00.000Z"
    nowMillis := 1767225600000, uploadError := none
    publicUrl := some "https://cdn.example/trip.jpg", updateError := none }

/-- A world in which the Record Store insert fails. -/
def wInsertFail : World := { wOk with insertError := some "insert failed" }

/-- A world in which the Blob Store upload fails. -/
def wUploadFail : World := { wOk with uploadError := some "upload failed" }

/-- A world in which the public-URL derivation yields no URL. -/
def wNoUrl : World := { wOk with publicUrl := none }

/-- The initial form with products set to Other and a blank free-text field. -/
def formProductsOtherBlank : FormState :=
  { initialForm with profiling := { initialForm.profiling with products := ["Other"], productsOther := "   " } }

/-- The initial form with audience set to Other and a blank free-text field. -/
def formAudienceOtherBlank : FormState :=
  { initialForm with profiling := { initialForm.profiling with audience := ["Other"], audienceOther := "" } }

/-- The initial form with the team-size slider at its maximum. -/
def formTeam100 : FormState :=
  { initialForm with profiling := { initialForm.profiling with teamSize := 100 } }

/-! Theorems settling the claims. -/

/-- C7: for every FormState, buildPayload carries the profiling
selections and all three pain-point groups verbatim under the wire
names profiling, pain_points.customer_end, pain_points.internal_ops,
pain_points.supplier_end, and is independent of the photo (so the
photo is excluded); as a Lean function it is deterministic and free of
side effects. -/
theorem buildPayload_wire_shape (form : FormState) :
    (buildPayload form).profiling = form.profiling ∧
    (buildPayload form).pain_points.customer_end = form.painPoints.customerEnd ∧
    (buildPayload form).pain_points.internal_ops = form.painPoints.internalOps ∧
    (buildPayload form).pain_points.supplier_end = form.painPoints.supplierEnd ∧
    (∀ g : FormState, g.profiling = form.profiling → g.painPoints = form.painPoints →
      buildPayload g = buildPayload form) := by
  refine ⟨rfl, rfl, rfl, rfl, ?_⟩
  intro g hp hpp
  simp [buildPayload, hp, hpp]

/-- Witness for C7 at a concrete form: the photo-independence part is
applied to formWithPhoto, which differs from initialForm only in the
photo, and the verbatim part is read off at initialForm. -/
theorem buildPayload_wire_shape_witness :
    buildPayload formWithPhoto = buildPayload initialForm ∧
    (buildPayload initialForm).profiling = initialForm.profiling :=
  ⟨(buildPayload_wire_shape initialForm).2.2.2.2 formWithPhoto rfl rfl,
   (buildPayload_wire_shape initialForm).1⟩

/-- C8: if profiling.products includes "Other" with blank free text,
profiling-step validation fails and nextStep from the profiling step
(index 0) does not advance; symmetrically for audience; validation
also fails when products or audience is empty. -/
theorem validateStep_profiling_rejects (form : FormState) :
    (form.profiling.products.contains "Other" = true →
      jsTrim form.profiling.productsOther = "" →
      validateStep "profiling" form = false ∧ nextStep 0 form = 0) ∧
    (form.profiling.audience.contains "Other" = true →
      jsTrim form.profiling.audienceOther = "" →
      validateStep "profiling" form = false ∧ nextStep 0 form = 0) ∧
    (form.profiling.products = [] →
      validateStep "profiling" form = false ∧ nextStep 0 form = 0) ∧
    (form.profiling.audience = [] →
      validateStep "profiling" form = false ∧ nextStep 0 form = 0) := by
  have keep : ∀ h : validateStep "profiling" form = false, nextStep 0 form = 0 := by
    intro h
    simp [nextStep, stepIdAt, STEPS, h]
  refine ⟨?_, ?_, ?_, ?_⟩
  · intro h1 h2
    have hmem : "Other" ∈ form.profiling.products := by simpa using h1
    have hv : validateStep "profiling" form = false := by
      simp [validateStep, hmem, h2]
    exact ⟨hv, keep hv⟩
  · intro h1 h2
    have hmem : "Other" ∈ form.profiling.audience := by simpa using h1
    have hv : validateStep "profiling" form = false := by
      simp [validateStep, hmem, h2]
    exact ⟨hv, keep hv⟩
  · intro h1
    have hv : validateStep "profiling" form = false := by
      simp [validateStep, h1]
    exact ⟨hv, keep hv⟩
  · intro h1
    have hv : validateStep "profiling" form = false := by
      simp [validateStep, h1]
    exact ⟨hv, keep hv⟩

/-- Witness for C8 at concrete forms with blank Other free text. -/
theorem validateStep_profiling_rejects_witness :
    (validateStep "profiling" formProductsOtherBlank = false ∧ nextStep 0 formProductsOtherBlank = 0) ∧
    (validateStep "profiling" formAudienceOtherBlank = false ∧ nextStep 0 formAudienceOtherBlank = 0) :=
  ⟨(validateStep_profiling_rejects formProductsOtherBlank).1 (by decide) (by decide),
   (validateStep_profiling_rejects formAudienceOtherBlank).2.1 (by decide) (by decide)⟩

/-- C9: when teamSize is 100, both user-facing summaries render the
sentinel "100+" while the payload serializes the integer 100 and the
stored FormState value is 100. -/
theorem teamSize_sentinel (form : FormState) (h : form.profiling.teamSize = 100) :
    profilingTeamLabel form.profiling.teamSize = "100+" ∧
    reviewTeamLabel form.profiling.teamSize = "100+" ∧
    (buildPayload form).profiling.teamSize = 100 := by
  rw [h]
  exact ⟨rfl, rfl, by simp [buildPayload, h]⟩

/-- Witness for C9 at the concrete form with teamSize 100. -/
theorem teamSize_sentinel_witness :
    profilingTeamLabel formTeam100.profiling.teamSize = "100+" ∧
    reviewTeamLabel formTeam100.profiling.teamSize = "100+" ∧
    (buildPayload formTeam100).profiling.teamSize = 100 :=
  teamSize_sentinel formTeam100 rfl

/-- Step indices reachable from the initial index 0 by any sequence of
nextStep and prevStep operations. -/
inductive ReachableStep : Nat → Prop where
  | init : ReachableStep 0
  | next (i : Nat) (form : FormState) : ReachableStep i → ReachableStep (nextStep i form)
  | back (i : Nat) : ReachableStep i → ReachableStep (prevStep i)

/-- C10: every reachable step index lies between 0 and
STEPS.length - 1, so STEPS at that index is defined. -/
theorem stepIndex_in_bounds (i : Nat) (h : ReachableStep i) :
    i ≤ STEPS.length - 1 ∧ (STEPS.get? i).isSome = true := by
  have hb : i ≤ 3 := by
    induction h with
    | init => omega
    | next j form hj ih =>
        unfold nextStep
        split
        · exact Nat.min_le_right _ _
        · exact ih
    | back j hj ih =>
        interval_cases j <;> decide
  refine ⟨hb, ?_⟩
  interval_cases i <;> decide

/-- Witness for C10 at the initial index. -/
theorem stepIndex_in_bounds_witness :
    (0 : Nat) ≤ STEPS.length - 1 ∧ (STEPS.get? 0).isSome = true :=
  stepIndex_in_bounds 0 ReachableStep.init

/-- Counterexample for C1 as stated: a submission attempt with the
consent box unchecked makes zero Record Store insert calls, not
exactly one; and a photo-less attempt whose insert fails does not
terminate successfully. -/
theorem submit_insert_once_counterexample :
    ¬ insertCalls (handleSubmit false initialForm wOk).trace = 1 ∧
    initialForm.photo.file = none ∧
    ¬ (handleSubmit true initialForm wInsertFail).status.state = StatusState.success := by
  refine ⟨by decide, rfl, by decide⟩

/-- C1 amended: for every submission attempt with consent confirmed,
handleSubmit calls the Record Store insert exactly once; and when no
photo file is attached and the insert succeeds, it never calls the
Blob Store and terminates successfully with the record persisted and
its photo fields null. -/
theorem submit_insert_once_no_photo (form : FormState) (w : World) :
    insertCalls (handleSubmit true form w).trace = 1 ∧
    (form.photo.file = none → w.insertError = none →
      blobCalls (handleSubmit true form w).trace = 0 ∧
      (handleSubmit true form w).status =
        { state := .success, message := "Survey submitted successfully." } ∧
      (handleSubmit true form w).record =
        some { id := w.newId, created_at := w.createdAt, data := buildPayload form
               photo_path := none, photo_url := none }) := by
  constructor
  · cases hie : w.insertError with
    | some msg => simp [handleSubmit, hie, insertCalls, Call.isInsert]
    | none =>
      cases hf : form.photo.file with
      | none => simp [handleSubmit, hie, hf, insertCalls, Call.isInsert]
      | some file =>
        cases hue : w.uploadError with
        | some m => simp [handleSubmit, hie, hf, hue, insertCalls, Call.isInsert, List.filter]
        | none =>
          cases hpe : w.updateError with
          | some m =>
              simp [handleSubmit, hie, hf, hue, hpe, insertCalls, Call.isInsert,
                    Call.isBlobStore, Call.isUpdate, List.filter]
          | none =>
              simp [handleSubmit, hie, hf, hue, hpe, insertCalls, Call.isInsert,
                    Call.isBlobStore, Call.isUpdate, List.filter]
  · intro hf hie
    refine ⟨?_, ?_, ?_⟩ <;>
      simp [handleSubmit, hie, hf, blobCalls, Call.isBlobStore, List.filter]

/-- Witness for C1 amended at the initial form (no photo) in the
all-success world. -/
theorem submit_insert_once_no_photo_witness :
    insertCalls (handleSubmit true initialForm wOk).trace = 1 ∧
    blobCalls (handleSubmit true initialForm wOk).trace = 0 ∧
    (handleSubmit true initialForm wOk).status =
      { state := .success, message := "Survey submitted successfully." } := by
  have h := submit_insert_once_no_photo initialForm wOk
  exact ⟨h.1, (h.2 rfl rfl).1, (h.2 rfl rfl).2.1⟩

/-- C2: when the Record Store insert fails, the only remote call is
that insert — the Blob Store and the record update are never invoked —
no record and no blob object exist, and the terminal status is the
error state carrying the insert failure message. -/
theorem submit_failed_insert (form : FormState) (w : World) (msg : String)
    (h : w.insertError = some msg) :
    (handleSubmit true form w).trace = [Call.insert (buildPayload form) w.createdAt] ∧
    blobCalls (handleSubmit true form w).trace = 0 ∧
    updateCalls (handleSubmit true form w).trace = 0 ∧
    (handleSubmit true form w).record = none ∧
    (handleSubmit true form w).blobObject = none ∧
    (handleSubmit true form w).status = { state := .error, message := errMessage msg } := by
  refine ⟨?_, ?_, ?_, ?_, ?_, ?_⟩ <;>
    simp [handleSubmit, h, blobCalls, updateCalls, Call.isBlobStore, Call.isUpdate, List.filter]

/-- Witness for C2 in the failing-insert world. -/
theorem submit_failed_insert_witness :
    (handleSubmit true initialForm wInsertFail).record = none ∧
    (handleSubmit true initialForm wInsertFail).status =
      { state := .error, message := errMessage "insert failed" } := by
  have h := submit_failed_insert initialForm wInsertFail "insert failed" rfl
  exact ⟨h.2.2.2.1, h.2.2.2.2.2⟩

/-- C3: when a photo is attached, the insert succeeds and the upload
fails, no record update is attempted, the inserted record remains
persisted with photo_path and photo_url null (no rollback), no blob
object exists, and the terminal status is the error state carrying the
upload failure message. -/
theorem submit_failed_upload (form : FormState) (w : World) (file : FileBlob) (msg : String)
    (hf : form.photo.file = some file) (hie : w.insertError = none)
    (hue : w.uploadError = some msg) :
    updateCalls (handleSubmit true form w).trace = 0 ∧
    (handleSubmit true form w).record =
      some { id := w.newId, created_at := w.createdAt, data := buildPayload form
             photo_path := none, photo_url := none } ∧
    (handleSubmit true form w).blobObject = none ∧
    (handleSubmit true form w).status = { state := .error, message := errMessage msg } := by
  refine ⟨?_, ?_, ?_, ?_⟩ <;>
    simp [handleSubmit, hf, hie, hue, updateCalls, Call.isUpdate, List.filter]

/-- Witness for C3 with a sample photo in the failing-upload world. -/
theorem submit_failed_upload_witness :
    updateCalls (handleSubmit true formWithPhoto wUploadFail).trace = 0 ∧
    (handleSubmit true formWithPhoto wUploadFail).record =
      some { id := wUploadFail.newId, created_at := wUploadFail.createdAt
             data := buildPayload formWithPhoto, photo_path := none, photo_url := none } := by
  have h := submit_failed_upload formWithPhoto wUploadFail sampleFile "upload failed" rfl rfl rfl
  exact ⟨h.1, h.2.1⟩

/-- C4: on every submission with a photo that reaches the upload, the
second remote call is the Blob Store upload, and its storage key is
exactly the concatenation survey-photos/survey-, the record id, a
hyphen, the epoch-millis clock value, a dot and the original file
name's extension — a deterministic function of those three values. -/
theorem submit_storage_key (form : FormState) (w : World) (file : FileBlob)
    (hf : form.photo.file = some file) (hie : w.insertError = none) :
    (handleSubmit true form w).trace.take 2 =
      [Call.insert (buildPayload form) w.createdAt,
       Call.upload ("survey-photos/" ++
         ("survey-" ++ toString w.newId ++ "-" ++ toString w.nowMillis ++ "." ++ fileExtOf file.name))
         file.type false] := by
  cases hue : w.uploadError with
  | some m => simp [handleSubmit, hf, hie, hue]
  | none =>
    cases hpe : w.updateError with
    | some m => simp [handleSubmit, hf, hie, hue, hpe]
    | none => simp [handleSubmit, hf, hie, hue, hpe]

/-- Witness for C4 with a sample photo named trip.jpg in the
all-success world. -/
theorem submit_storage_key_witness :
    (handleSubmit true formWithPhoto wOk).trace.take 2 =
      [Call.insert (buildPayload formWithPhoto) wOk.createdAt,
       Call.upload ("survey-photos/" ++
         ("survey-" ++ toString wOk.newId ++ "-" ++ toString wOk.nowMillis ++ "." ++ fileExtOf sampleFile.name))
         sampleFile.type false] :=
  submit_storage_key formWithPhoto wOk sampleFile rfl rfl

/-- Counterexample for C5 as stated: at a concrete FormState and
world, flipping only the consent flag changes the remote-call trace of
handleSubmit (no calls versus one insert), so the remote-call
behaviour is not independent of consent. -/
theorem submit_consent_counterexample :
    (handleSubmit false initialForm wOk).trace ≠ (handleSubmit true initialForm wOk).trace := by
  decide

/-- C5 amended: handleSubmit does re-check consent — for every
FormState and world, when the consent flag is false it makes no remote
call at all, leaves no record and no blob object, and terminates in
the consent error state; consent is not merely a caller-side
precondition. -/
theorem submit_consent_gate (form : FormState) (w : World) :
    (handleSubmit false form w).trace = [] ∧
    (handleSubmit false form w).record = none ∧
    (handleSubmit false form w).blobObject = none ∧
    (handleSubmit false form w).status =
      { state := .error, message := "Please confirm consent to submit." } := by
  refine ⟨?_, ?_, ?_, ?_⟩ <;> simp [handleSubmit]

/-- C6: when a photo is attached, insert and upload succeed and the
public-URL derivation yields no URL, handleSubmit proceeds to the
record update rather than aborting: the fourth remote call is the
update carrying the storage path and a null photo_url, and if that
update succeeds the persisted record holds the storage path with
photo_url null. -/
theorem submit_null_public_url (form : FormState) (w : World) (file : FileBlob)
    (hf : form.photo.file = some file) (hie : w.insertError = none)
    (hue : w.uploadError = none) (hpu : w.publicUrl = none) :
    (handleSubmit true form w).trace.get? 3 =
      some (Call.update w.newId
        ("survey-photos/" ++
          ("survey-" ++ toString w.newId ++ "-" ++ toString w.nowMillis ++ "." ++ fileExtOf file.name))
        none) ∧
    updateCalls (handleSubmit true form w).trace = 1 ∧
    (w.updateError = none →
      (handleSubmit true form w).record =
        some { id := w.newId, created_at := w.createdAt, data := buildPayload form
               photo_path := some ("survey-photos/" ++
                 ("survey-" ++ toString w.newId ++ "-" ++ toString w.nowMillis ++ "." ++ fileExtOf file.name))
               photo_url := none }) := by
  cases hpe : w.updateError with
  | some m =>
      refine ⟨?_, ?_, ?_⟩ <;>
        simp [handleSubmit, hf, hie, hue, hpu, hpe, updateCalls, Call.isUpdate, List.filter]
  | none =>
      refine ⟨?_, ?_, ?_⟩ <;>
        simp [handleSubmit, hf, hie, hue, hpu, hpe, updateCalls, Call.isUpdate, List.filter]

/-- Witness for C6 with a sample photo in the world whose URL
derivation yields nothing. -/
theorem submit_null_public_url_witness :
    (handleSubmit true formWithPhoto wNoUrl).trace.get? 3 =
      some (Call.update wNoUrl.newId
        ("survey-photos/" ++
          ("survey-" ++ toString wNoUrl.newId ++ "-" ++ toString wNoUrl.nowMillis ++ "." ++ fileExtOf sampleFile.name))
        none) ∧
    updateCalls (handleSubmit true formWithPhoto wNoUrl).trace = 1 := by
  have h := submit_null_public_url formWithPhoto wNoUrl sampleFile rfl rfl rfl rfl
  exact ⟨h.1, h.2.1⟩
